import Mathlib

/-!
Verification of the finance-rag retrieval-augmented-generation assistant.

The development shallowly embeds the program's data model and operations:

* `Metadata`, `Document`, `State` mirror the value types built in
  `src/models/state.py`, `src/services/index.py` and `src/services/rag.py`.
* `retrieve` and `generate` embed `RAGService.retrieve` / `RAGService.generate`
  (`src/services/rag.py`).  The external vector index, prompt template and chat
  model are passed in as abstract functions; each operation additionally
  returns the list of calls it made to its external dependency (the queries
  sent to `similarity_search`, respectively the rendered prompts sent to the
  chat model), so that "the dependency is never invoked" is expressible.
* `load_text_files` and `index_knowledge_base` embed `IndexService`
  (`src/services/index.py`) over an abstract filesystem: the knowledge-base
  directory is `none` when absent, otherwise a list of `FileEntry` records; a
  file whose `content` is `none` is one whose read raises.
* `chunkFromFuel` / `splitChunks` model the document chunker (window 1000,
  overlap 200, start offsets); the splitter implementation itself is library
  code that is not part of this repository.
* `get_user_input` and `loop_step` embed one iteration of the conversation
  loop of `src/app.py` together with `ChatService.get_user_input`
  (`src/services/chat.py`); `pyStrip` / `pyLower` model Python's
  `str.strip()` / `str.lower()` for the ASCII inputs the loop compares
  against.
-/

/-- ASCII whitespace as recognised by Python's `str.strip()` (the inputs the
conversation loop deals with are ASCII). -/
def pyWs (c : Char) : Bool :=
  c == ' ' || c == '\t' || c == '\n' || c == '\r' || c == '\x0b' || c == '\x0c'

/-- Model of Python's `str.strip()`: remove leading and trailing whitespace. -/
def pyStrip (s : String) : String :=
  ⟨((s.data.dropWhile pyWs).reverse.dropWhile pyWs).reverse⟩

/-- Model of Python's `str.lower()` on a single ASCII character. -/
def pyLowerChar (c : Char) : Char :=
  if 'A' ≤ c && c ≤ 'Z' then Char.ofNat (c.toNat + 32) else c

/-- Model of Python's `str.lower()`. -/
def pyLower (s : String) : String :=
  ⟨s.data.map pyLowerChar⟩

/-- Model of the filename filter `directory_path.glob("*.txt")`: the name ends
in `.txt`. -/
def globTxt (name : String) : Bool :=
  ".txt".data.isSuffixOf name.data

/-- Metadata attached to a `Document`.  The loader fills `source`, `filename`
and `file_type`; the splitter (`add_start_index=True`) additionally records
`start_index`. -/
structure Metadata where
  source : String
  filename : String
  file_type : String
  start_index : Option Nat := none
deriving DecidableEq

/-- A langchain `Document`: page content plus metadata. -/
structure Document where
  page_content : String
  metadata : Metadata
deriving DecidableEq

/-- The conversation `State` of `src/models/state.py` (also redeclared in
`src/services/rag.py`): three optional fields, all defaulting to `None`. -/
structure State where
  question : Option String := none
  context : Option (List Document) := none
  answer : Option String := none
deriving DecidableEq

/-- `RAGService.retrieve` (`src/services/rag.py`).  The vector store's
`similarity_search` is the abstract function `similarity_search`; the second
component of the result lists the queries sent to it during the call. -/
def retrieve (similarity_search : String → List Document) (state : State) :
    Except String State × List String :=
  match state.question with
  | none => (Except.error "Question is required to retrieve context.", [])
  | some question =>
    (Except.ok
      { question := state.question
        context := some (similarity_search question)
        answer := state.answer }, [question])

/-- `RAGService.generate` (`src/services/rag.py`).  `prompt` models rendering
the prompt template with the question and the concatenated context, `llm`
models the chat model's textual response; the second component of the result
lists the rendered prompts sent to the chat model during the call. -/
def generate (prompt : String → String → String) (llm : String → String)
    (state : State) : Except String State × List String :=
  match state.context, state.question with
  | some context, some question =>
    if context.length = 0 then
      (Except.error "Context and question are required to generate an answer.", [])
    else
      let documents_content : String :=
        String.intercalate "\n\n" (context.map Document.page_content)
      let target_prompt : String := prompt question documents_content
      (Except.ok
        { question := state.question
          context := state.context
          answer := some (llm target_prompt) }, [target_prompt])
  | _, _ =>
    (Except.error "Context and question are required to generate an answer.", [])

/-- The compiled graph of `GraphService.build` (`src/services/graph.py`): the
sequence `retrieve` then `generate`, a failure of either stage aborting the
turn. -/
def pipeline (similarity_search : String → List Document)
    (prompt : String → String → String) (llm : String → String)
    (state : State) : Except String State :=
  match (retrieve similarity_search state).1 with
  | Except.error e => Except.error e
  | Except.ok retrieved => (generate prompt llm retrieved).1

/-- `ChatService.get_user_input` (`src/services/chat.py`): the raw line with
surrounding whitespace stripped. -/
def get_user_input (raw : String) : String := pyStrip raw

/-- The farewell printed by `main` (`src/app.py`) when an exit keyword is
entered. -/
def goodbye_message : String :=
  "\n👋 Goodbye! Thanks for using Investment RAG Assistant."

/-- The usage hint printed by `main` (`src/app.py`) on empty input. -/
def empty_input_message : String := "❌ Please enter a question or command."

/-- Outcome of one iteration of the conversation loop in `main`
(`src/app.py`): terminate printing a farewell, re-prompt printing a hint, or
invoke the pipeline on the given question. -/
inductive LoopStep where
  | terminate (message : String)
  | reprompt (message : String)
  | run (question : String)
deriving DecidableEq

/-- One iteration of the conversation loop of `main` (`src/app.py`): strip the
raw line, terminate on an exit keyword (checked case-insensitively), re-prompt
on empty input, otherwise run the pipeline on the stripped input. -/
def loop_step (raw : String) : LoopStep :=
  if pyLower (get_user_input raw) ∈ ["quit", "exit", "q"] then
    LoopStep.terminate goodbye_message
  else if get_user_input raw = "" then
    LoopStep.reprompt empty_input_message
  else
    LoopStep.run (get_user_input raw)

example : loop_step "Quit" = LoopStep.terminate goodbye_message := by decide
example : loop_step "  " = LoopStep.reprompt empty_input_message := by decide
example : loop_step " what? " = LoopStep.run "what?" := by decide

/-- One candidate file of the knowledge-base directory: its full path, its
base name, and its contents — `none` when reading the file raises, which
`IndexService._load_text_files` catches and skips. -/
structure FileEntry where
  path : String
  name : String
  content : Option String
deriving DecidableEq

/-- `IndexService._load_text_files` (`src/services/index.py`): keep the files
matching `*.txt`, read each one, skipping files whose read fails, and wrap
each successfully read file in a `Document` with `source`, `filename` and
`file_type` metadata. -/
def load_text_files (files : List FileEntry) : List Document :=
  (files.filter fun f => globTxt f.name).filterMap fun f =>
    f.content.map fun content =>
      { page_content := content
        metadata := { source := f.path, filename := f.name, file_type := "text" } }

/-- Modelled from the spec: the repository delegates chunking to langchain's
`RecursiveCharacterTextSplitter(chunk_size=1000, chunk_overlap=200,
add_start_index=True)` (`src/services/index.py`), whose implementation is
library code absent from this repository.  The spec describes the chunker as
splitting a document's content into overlapping windows of at most 1000
characters with 200 characters of overlap between consecutive chunks, each
chunk tagged with its starting character offset.  `chunkFromFuel fuel s off`
emits the windows of `s` (whose first character sits at offset `off` of the
source document): a window of at most 1000 characters, then, when content
remains beyond it, the rest from 800 (= 1000 - 200) characters further on.
`fuel` bounds the recursion and is immaterial once `s.length ≤ fuel`. -/
def chunkFromFuel : Nat → List Char → Nat → List (List Char × Nat)
  | 0, _, _ => []
  | fuel + 1, s, off =>
    if s = [] then []
    else if s.length ≤ 1000 then [(s, off)]
    else (s.take 1000, off) :: chunkFromFuel fuel (s.drop 800) (off + 800)

/-- The chunker applied to one document content: windows with their starting
offsets. -/
def splitChunks (s : List Char) : List (List Char × Nat) :=
  chunkFromFuel s.length s 0

/-- Chunking one `Document`: each window becomes a `Document` that inherits
the parent's metadata and records its `start_index`. -/
def split_document (d : Document) : List Document :=
  (splitChunks d.page_content.data).map fun p =>
    { page_content := ⟨p.1⟩
      metadata :=
        { source := d.metadata.source
          filename := d.metadata.filename
          file_type := d.metadata.file_type
          start_index := some p.2 } }

/-- `text_splitter.split_documents` over the loaded documents, in order. -/
def split_documents (docs : List Document) : List Document :=
  docs.flatMap split_document

/-- Error outcomes of `IndexService.index_knowledge_base`
(`src/services/index.py`): `FileNotFoundError` when the directory is absent,
`ValueError` when no text files were loaded. -/
inductive IndexError where
  | directoryNotFound (path : String)
  | emptyKnowledgeBase
deriving DecidableEq

/-- `IndexService.index_knowledge_base` (`src/services/index.py`): fail when
the `knowledge_base` directory is absent, load the text files, fail when none
were loaded, otherwise split the documents and build the in-memory vector
store, embedding each chunk's content.  `embed` is the abstract embedding
service; the second component of the result lists the texts sent to it. -/
def index_knowledge_base {E : Type} (embed : String → E)
    (knowledge_base : Option (List FileEntry)) :
    Except IndexError (List (Document × E)) × List String :=
  match knowledge_base with
  | none => (Except.error (IndexError.directoryNotFound "knowledge_base"), [])
  | some files =>
    let text_documents : List Document := load_text_files files
    if text_documents.length = 0 then
      (Except.error IndexError.emptyKnowledgeBase, [])
    else
      let split_docs : List Document := split_documents text_documents
      (Except.ok (split_docs.map fun c => (c, embed c.page_content)),
        split_docs.map fun c => c.page_content)

/-- The property that every pair of consecutive chunk contents overlaps in
exactly 200 characters: the earlier chunk is full (1000 characters), its last
200 characters are the first 200 characters of the later chunk, and the later
chunk indeed has at least 200 characters. -/
def chunksOverlap : List (List Char) → Prop
  | a :: b :: rest =>
    a.length = 1000 ∧ a.drop 800 = b.take 200 ∧ 200 ≤ b.length ∧
      chunksOverlap (b :: rest)
  | _ => True

/-- Stitching chunk contents back together using the overlap: every chunk but
the last contributes its first 800 characters (its last 200 being repeated at
the head of its successor), the last chunk contributes itself whole. -/
def stitchList : List (List Char) → List Char
  | [] => []
  | [c] => c
  | c :: rest => c.take 800 ++ stitchList rest

example : splitChunks "ab".data = [("ab".data, 0)] := by decide
example : stitchList ["ab".data] = "ab".data := by decide

/-- The fuel argument of `chunkFromFuel` is immaterial once it dominates the
length of the remaining content. -/
theorem chunkFromFuel_congr (fuel₁ fuel₂ : Nat) (s : List Char) (off : Nat)
    (h₁ : s.length ≤ fuel₁) (h₂ : s.length ≤ fuel₂) :
    chunkFromFuel fuel₁ s off = chunkFromFuel fuel₂ s off := by
  induction fuel₁ generalizing fuel₂ s off with
  | zero =>
    have hs : s = [] := List.length_eq_zero.mp (Nat.le_zero.mp h₁)
    cases fuel₂ with
    | zero => rfl
    | succ g => simp [chunkFromFuel, hs]
  | succ f ih =>
    cases fuel₂ with
    | zero =>
      have hs : s = [] := List.length_eq_zero.mp (Nat.le_zero.mp h₂)
      simp [chunkFromFuel, hs]
    | succ g =>
      by_cases hs : s = []
      · simp [chunkFromFuel, hs]
      · by_cases hlen : s.length ≤ 1000
        · simp [chunkFromFuel, hs, hlen]
        · simp only [chunkFromFuel, if_neg hs, if_neg hlen]
          have hf : (s.drop 800).length ≤ f := by
            simp only [List.length_drop]; omega
          have hg : (s.drop 800).length ≤ g := by
            simp only [List.length_drop]; omega
          rw [ih g (s.drop 800) (off + 800) hf hg]

/-- On non-empty content with enough fuel, the chunker's first chunk is the
first (at most) 1000 characters, at the given offset. -/
theorem chunkFromFuel_cons (fuel : Nat) (s : List Char) (off : Nat)
    (hs : s ≠ []) (h : s.length ≤ fuel) :
    ∃ rest, chunkFromFuel fuel s off = (s.take 1000, off) :: rest := by
  cases fuel with
  | zero => exact absurd (List.length_eq_zero.mp (Nat.le_zero.mp h)) hs
  | succ f =>
    by_cases hlen : s.length ≤ 1000
    · exact ⟨[], by simp [chunkFromFuel, hs, hlen, List.take_of_length_le hlen]⟩
    · exact ⟨chunkFromFuel f (s.drop 800) (off + 800),
        by simp [chunkFromFuel, hs, hlen]⟩

/-- Every chunk the chunker produces has at most 1000 characters. -/
theorem chunkFromFuel_length_le (fuel : Nat) (s : List Char) (off : Nat)
    (h : s.length ≤ fuel) :
    ∀ p ∈ chunkFromFuel fuel s off, p.1.length ≤ 1000 := by
  induction fuel generalizing s off with
  | zero => simp [chunkFromFuel]
  | succ f ih =>
    intro p hp
    by_cases hs : s = []
    · simp [chunkFromFuel, hs] at hp
    · by_cases hlen : s.length ≤ 1000
      · simp [chunkFromFuel, hs, hlen] at hp
        rw [hp]
        exact hlen
      · simp only [chunkFromFuel, if_neg hs, if_neg hlen, List.mem_cons] at hp
        rcases hp with hp | hp
        · rw [hp]
          simp [List.length_take]
        · have hf : (s.drop 800).length ≤ f := by
            simp only [List.length_drop]; omega
          exact ih (s.drop 800) (off + 800) hf p hp

/-- Every chunk the chunker produces is the window of the source content that
starts at its recorded offset. -/
theorem chunkFromFuel_offsets (fuel : Nat) (s : List Char) (off : Nat)
    (h : s.length ≤ fuel) :
    ∀ p ∈ chunkFromFuel fuel s off,
      off ≤ p.2 ∧ p.1 = (s.drop (p.2 - off)).take p.1.length := by
  induction fuel generalizing s off with
  | zero => simp [chunkFromFuel]
  | succ f ih =>
    intro p hp
    by_cases hs : s = []
    · simp [chunkFromFuel, hs] at hp
    · by_cases hlen : s.length ≤ 1000
      · simp [chunkFromFuel, hs, hlen] at hp
        rw [hp]
        exact ⟨Nat.le_refl off, by simp [List.take_of_length_le]⟩
      · simp only [chunkFromFuel, if_neg hs, if_neg hlen, List.mem_cons] at hp
        rcases hp with hp | hp
        · rw [hp]
          refine ⟨Nat.le_refl off, ?_⟩
          have hmin : min 1000 s.length = 1000 :=
            Nat.min_eq_left (by omega)
          simp [List.length_take, hmin]
        · have hf : (s.drop 800).length ≤ f := by
            simp only [List.length_drop]; omega
          obtain ⟨h1, h2⟩ := ih (s.drop 800) (off + 800) hf p hp
          refine ⟨by omega, ?_⟩
          rw [List.drop_drop] at h2
          have harith : 800 + (p.2 - (off + 800)) = p.2 - off := by omega
          rw [harith] at h2
          exact h2

/-- Consecutive chunks overlap in exactly 200 characters: each non-final
chunk is full and its last 200 characters head the next chunk. -/
theorem chunkFromFuel_overlap (fuel : Nat) (s : List Char) (off : Nat)
    (h : s.length ≤ fuel) :
    chunksOverlap ((chunkFromFuel fuel s off).map Prod.fst) := by
  induction fuel generalizing s off with
  | zero => simp [chunkFromFuel, chunksOverlap]
  | succ f ih =>
    by_cases hs : s = []
    · simp [chunkFromFuel, hs, chunksOverlap]
    · by_cases hlen : s.length ≤ 1000
      · simp [chunkFromFuel, hs, hlen, chunksOverlap]
      · have hd : s.drop 800 ≠ [] := by
          intro hcon
          have := congrArg List.length hcon
          simp only [List.length_drop, List.length_nil] at this
          omega
        have hf : (s.drop 800).length ≤ f := by
          simp only [List.length_drop]; omega
        obtain ⟨rest, hrest⟩ := chunkFromFuel_cons f (s.drop 800) (off + 800) hd hf
        have htl := ih (s.drop 800) (off + 800) hf
        rw [hrest] at htl
        simp only [chunkFromFuel, if_neg hs, if_neg hlen, hrest, List.map_cons]
        simp only [List.map_cons] at htl
        refine ⟨?_, ?_, ?_, htl⟩
        · simp only [List.length_take]
          omega
        · rw [List.drop_take, List.take_take]
          norm_num
        · simp only [List.length_take, List.length_drop]
          omega

/-- Stitching the chunks back together using the overlap reconstructs the
source content. -/
theorem chunkFromFuel_stitch (fuel : Nat) (s : List Char) (off : Nat)
    (h : s.length ≤ fuel) :
    stitchList ((chunkFromFuel fuel s off).map Prod.fst) = s := by
  induction fuel generalizing s off with
  | zero =>
    have hs : s = [] := List.length_eq_zero.mp (Nat.le_zero.mp h)
    simp [chunkFromFuel, stitchList, hs]
  | succ f ih =>
    by_cases hs : s = []
    · simp [chunkFromFuel, hs, stitchList]
    · by_cases hlen : s.length ≤ 1000
      · simp [chunkFromFuel, hs, hlen, stitchList]
      · have hd : s.drop 800 ≠ [] := by
          intro hcon
          have := congrArg List.length hcon
          simp only [List.length_drop, List.length_nil] at this
          omega
        have hf : (s.drop 800).length ≤ f := by
          simp only [List.length_drop]; omega
        obtain ⟨rest, hrest⟩ := chunkFromFuel_cons f (s.drop 800) (off + 800) hd hf
        have htl := ih (s.drop 800) (off + 800) hf
        rw [hrest] at htl
        simp only [List.map_cons] at htl
        simp only [chunkFromFuel, if_neg hs, if_neg hlen, hrest, List.map_cons]
        simp only [stitchList]
        rw [htl, List.take_take]
        norm_num


/-- Metadata shared by the concrete sample documents used below. -/
def sample_metadata : Metadata :=
  { source := "knowledge_base/notes.txt", filename := "notes.txt", file_type := "text" }

/-- C1: for every state whose context is a non-empty list of chunks and whose
question is present, `generate` returns the state whose `answer` is the chat
model's response to the prompt template rendered with the question and the
page contents of all context chunks joined in their given order by a blank
line, with `question` and `context` carried over unchanged. -/
theorem generate_answers_with_rendered_prompt
    (prompt : String → String → String) (llm : String → String)
    (state : State) (ctx : List Document) (q : String)
    (hc : state.context = some ctx) (hne : ctx ≠ []) (hq : state.question = some q) :
    (generate prompt llm state).1 = Except.ok
      { question := some q
        context := some ctx
        answer := some (llm (prompt q
          (String.intercalate "\n\n" (ctx.map Document.page_content)))) } := by
  have hlen : ctx.length ≠ 0 := by simpa using hne
  simp [generate, hc, hq, hlen]

/-- Witness for C1 at a concrete state with two context chunks and concrete
prompt/model functions. -/
theorem generate_answers_with_rendered_prompt_witness :
    (generate (fun q c => q ++ ": " ++ c) (fun p => p ++ "!")
      { question := some "Q"
        context := some [{ page_content := "A", metadata := sample_metadata },
                         { page_content := "B", metadata := sample_metadata }]
        answer := none }).1 = Except.ok
      { question := some "Q"
        context := some [{ page_content := "A", metadata := sample_metadata },
                         { page_content := "B", metadata := sample_metadata }]
        answer := some "Q: A\n\nB!" } :=
  generate_answers_with_rendered_prompt _ _ _ _ _ rfl (by decide) rfl

/-- C2: for every state whose question is present, `retrieve` returns the
state whose `context` is exactly the vector index's similarity-search result
for the question text, with `question` and `answer` carried over unchanged
(and the index queried exactly once, with the question). -/
theorem retrieve_sets_context_carries_fields
    (similarity_search : String → List Document) (state : State) (q : String)
    (hq : state.question = some q) :
    retrieve similarity_search state =
      (Except.ok
        { question := state.question
          context := some (similarity_search q)
          answer := state.answer }, [q]) := by
  simp [retrieve, hq]

/-- Witness for C2 at a concrete state that already carries an answer. -/
theorem retrieve_sets_context_carries_fields_witness :
    retrieve (fun _ => [{ page_content := "A", metadata := sample_metadata }])
      { question := some "Q", context := none, answer := some "prev" } =
      (Except.ok
        { question := some "Q"
          context := some [{ page_content := "A", metadata := sample_metadata }]
          answer := some "prev" }, ["Q"]) :=
  retrieve_sets_context_carries_fields _ _ _ rfl

/-- C3: `retrieve` fails with the input-validation error exactly when the
question is absent, and in that case the vector index is never queried (the
trace of similarity-search calls is empty) and no state is produced. -/
theorem retrieve_error_iff_question_absent
    (similarity_search : String → List Document) (state : State) :
    ((retrieve similarity_search state).1.isOk = false ↔ state.question = none) ∧
    (state.question = none →
      retrieve similarity_search state =
        (Except.error "Question is required to retrieve context.", [])) := by
  cases hq : state.question <;>
    simp [retrieve, hq, Except.isOk, Except.toBool]

/-- Witness for C3 at the empty state. -/
theorem retrieve_error_iff_question_absent_witness :
    ((retrieve (fun _ => ([] : List Document)) ({} : State)).1.isOk = false) ∧
    retrieve (fun _ => ([] : List Document)) ({} : State) =
      (Except.error "Question is required to retrieve context.", []) :=
  ⟨(retrieve_error_iff_question_absent (fun _ => ([] : List Document)) ({} : State)).1.mpr rfl,
   (retrieve_error_iff_question_absent (fun _ => ([] : List Document)) ({} : State)).2 rfl⟩

/-- C4: `generate` fails with the input-validation error exactly when the
context is absent or empty or the question is absent, and in that case the
chat model is never invoked (the trace of model calls is empty) and no state
is produced. -/
theorem generate_error_iff_inputs_missing
    (prompt : String → String → String) (llm : String → String) (state : State) :
    ((generate prompt llm state).1.isOk = false ↔
      (state.context = none ∨ state.context = some [] ∨ state.question = none)) ∧
    ((state.context = none ∨ state.context = some [] ∨ state.question = none) →
      generate prompt llm state =
        (Except.error "Context and question are required to generate an answer.", [])) := by
  cases hc : state.context with
  | none =>
    cases hq : state.question <;>
      simp [generate, hc, hq, Except.isOk, Except.toBool]
  | some ctx =>
    cases hq : state.question with
    | none => simp [generate, hc, hq, Except.isOk, Except.toBool]
    | some q =>
      cases ctx with
      | nil => simp [generate, hc, hq, Except.isOk, Except.toBool]
      | cons d ds => simp [generate, hc, hq, Except.isOk, Except.toBool]

/-- Witness for C4 at a state with a present question but empty context. -/
theorem generate_error_iff_inputs_missing_witness :
    generate (fun q c => q ++ c) (fun p => p)
      { question := some "Q", context := some [], answer := none } =
      (Except.error "Context and question are required to generate an answer.", []) :=
  (generate_error_iff_inputs_missing (fun q c => q ++ c) (fun p => p)
      { question := some "Q", context := some [], answer := none }).2
    (Or.inr (Or.inl rfl))

/-- C8: in every iteration of the conversation loop, an input whose stripped
form is case-insensitively an exit keyword terminates the loop printing the
farewell, and an input whose stripped form is empty prints the usage hint and
re-prompts, never invoking the pipeline. -/
theorem loop_step_exit_and_empty (raw : String) :
    (pyLower (get_user_input raw) ∈ ["quit", "exit", "q"] →
      loop_step raw = LoopStep.terminate goodbye_message) ∧
    (get_user_input raw = "" →
      loop_step raw = LoopStep.reprompt empty_input_message ∧
        ∀ q, loop_step raw ≠ LoopStep.run q) := by
  constructor
  · intro h
    rw [loop_step, if_pos h]
  · intro h
    have hne : ¬(pyLower (get_user_input raw) ∈ (["quit", "exit", "q"] : List String)) := by
      rw [h]
      decide
    refine ⟨by rw [loop_step, if_neg hne, if_pos h], ?_⟩
    intro q hq
    rw [loop_step, if_neg hne, if_pos h] at hq
    exact LoopStep.noConfusion hq

/-- Witness for C8 at the inputs `"Quit"` and `"  "`. -/
theorem loop_step_exit_and_empty_witness :
    pyLower (get_user_input "Quit") ∈ ["quit", "exit", "q"] ∧
    loop_step "Quit" = LoopStep.terminate goodbye_message ∧
    get_user_input "  " = "" ∧
    loop_step "  " = LoopStep.reprompt empty_input_message :=
  ⟨by decide, (loop_step_exit_and_empty "Quit").1 (by decide), by decide,
    ((loop_step_exit_and_empty "  ").2 (by decide)).1⟩

/-- C9: with fixed deterministic index, prompt and model dependencies, the
composed retrieve-then-generate pipeline yields equal outcomes on any two
states carrying the same question. -/
theorem pipeline_deterministic_in_question
    (similarity_search : String → List Document)
    (prompt : String → String → String) (llm : String → String)
    (s₁ s₂ : State) (h : s₁.question = s₂.question) :
    pipeline similarity_search prompt llm s₁ =
      pipeline similarity_search prompt llm s₂ := by
  cases hq : s₁.question with
  | none =>
    have hq₂ : s₂.question = none := h.symm.trans hq
    simp [pipeline, retrieve, hq, hq₂]
  | some q =>
    have hq₂ : s₂.question = some q := h.symm.trans hq
    cases hsq : similarity_search q with
    | nil => simp [pipeline, retrieve, generate, hq, hq₂, hsq]
    | cons d ds => simp [pipeline, retrieve, generate, hq, hq₂, hsq]

/-- Witness for C9: two states with the same question but different stale
answers produce the same pipeline outcome under concrete dependencies. -/
theorem pipeline_deterministic_in_question_witness :
    pipeline (fun _ => [{ page_content := "A", metadata := sample_metadata }])
        (fun q c => q ++ ": " ++ c) (fun p => p ++ "!")
        { question := some "W", context := none, answer := some "stale" } =
      pipeline (fun _ => [{ page_content := "A", metadata := sample_metadata }])
        (fun q c => q ++ ": " ++ c) (fun p => p ++ "!")
        { question := some "W", context := none, answer := none } :=
  pipeline_deterministic_in_question _ _ _ _ _ rfl

/-- C10: on every state with a present question, `retrieve` succeeds with a
present (non-`none`) context — the similarity-search result, possibly the
empty list — so a subsequent `generate` can fail its precondition check only
because that list is empty, never because the context is absent. -/
theorem retrieve_context_always_present
    (similarity_search : String → List Document) (state : State) (q : String)
    (hq : state.question = some q) :
    ∃ s', (retrieve similarity_search state).1 = Except.ok s' ∧
      s'.context = some (similarity_search q) ∧
      ∀ (prompt : String → String → String) (llm : String → String),
        ((generate prompt llm s').1.isOk = false ↔ similarity_search q = []) := by
  refine ⟨{ question := state.question
            context := some (similarity_search q)
            answer := state.answer }, ?_, rfl, ?_⟩
  · simp [retrieve, hq]
  · intro prompt llm
    cases hsq : similarity_search q with
    | nil => simp [generate, hq, hsq, Except.isOk, Except.toBool]
    | cons d ds => simp [generate, hq, hsq, Except.isOk, Except.toBool]

/-- Witness for C10 with an index that returns no matches. -/
theorem retrieve_context_always_present_witness :
    ∃ s', (retrieve (fun _ => ([] : List Document))
        ({ question := some "W" } : State)).1 = Except.ok s' ∧
      s'.context = some ([] : List Document) ∧
      ∀ (prompt : String → String → String) (llm : String → String),
        ((generate prompt llm s').1.isOk = false ↔ ([] : List Document) = []) :=
  retrieve_context_always_present _ _ "W" rfl

/-- C5: for every loaded document the chunker produces chunks of at most 1000
characters, each being the window of the source content that starts at its
recorded offset, with consecutive chunks overlapping in exactly 200
characters, such that stitching the chunks back together using the overlap
reconstructs the document content; `split_document` wraps each window in a
`Document` that inherits the parent's metadata and records its start offset.
The chunker itself is modelled from the spec (see `chunkFromFuel`). -/
theorem chunker_windows_overlap_roundtrip (d : Document) :
    (∀ p ∈ splitChunks d.page_content.data, p.1.length ≤ 1000) ∧
    (∀ p ∈ splitChunks d.page_content.data,
      p.1 = (d.page_content.data.drop p.2).take p.1.length) ∧
    chunksOverlap ((splitChunks d.page_content.data).map Prod.fst) ∧
    stitchList ((splitChunks d.page_content.data).map Prod.fst) =
      d.page_content.data ∧
    split_document d = (splitChunks d.page_content.data).map (fun p =>
      { page_content := ⟨p.1⟩
        metadata :=
          { source := d.metadata.source
            filename := d.metadata.filename
            file_type := d.metadata.file_type
            start_index := some p.2 } }) := by
  refine ⟨?_, ?_, ?_, ?_, rfl⟩
  · exact chunkFromFuel_length_le _ _ _ (Nat.le_refl _)
  · intro p hp
    have h := (chunkFromFuel_offsets _ _ 0 (Nat.le_refl _) p hp).2
    simpa using h
  · exact chunkFromFuel_overlap _ _ _ (Nat.le_refl _)
  · exact chunkFromFuel_stitch _ _ _ (Nat.le_refl _)

/-- Concrete document used by the witness for C5. -/
def chunker_witness_doc : Document :=
  { page_content := "ab", metadata := sample_metadata }

/-- Witness for C5 at a concrete document and its single chunk. -/
theorem chunker_windows_overlap_roundtrip_witness :
    ("ab".data, 0) ∈ splitChunks chunker_witness_doc.page_content.data ∧
    ("ab".data, 0).1.length ≤ 1000 :=
  ⟨by decide,
   (chunker_windows_overlap_roundtrip chunker_witness_doc).1 ("ab".data, 0)
     (by decide)⟩

/-- C6: `index_knowledge_base` fails with the directory-not-found error when
the knowledge-base directory is absent, and with the empty-knowledge-base
error when zero documents result after loading — in particular whenever the
directory holds only files not matching `*.txt` — and in each failing case the
embedding service receives no text and no index is constructed. -/
theorem index_knowledge_base_error_cases {E : Type} (embed : String → E)
    (knowledge_base : Option (List FileEntry)) :
    (knowledge_base = none →
      index_knowledge_base embed knowledge_base =
        (Except.error (IndexError.directoryNotFound "knowledge_base"), [])) ∧
    (∀ files, knowledge_base = some files → load_text_files files = [] →
      index_knowledge_base embed knowledge_base =
        (Except.error IndexError.emptyKnowledgeBase, [])) ∧
    (∀ files, knowledge_base = some files →
      (∀ f ∈ files, globTxt f.name = false) →
      index_knowledge_base embed knowledge_base =
        (Except.error IndexError.emptyKnowledgeBase, [])) := by
  refine ⟨?_, ?_, ?_⟩
  · intro h
    subst h
    rfl
  · intro files h hload
    subst h
    simp [index_knowledge_base, hload]
  · intro files h hglob
    subst h
    have hfilter : files.filter (fun f => globTxt f.name) = [] := by
      rw [List.filter_eq_nil_iff]
      intro f hf
      simp [hglob f hf]
    have hload : load_text_files files = [] := by
      simp [load_text_files, hfilter]
    simp [index_knowledge_base, hload]

/-- Witness for C6: a directory holding a single non-`.txt` file. -/
theorem index_knowledge_base_error_cases_witness :
    index_knowledge_base (E := Nat) String.length
        (some [{ path := "knowledge_base/notes.md", name := "notes.md",
                 content := some "hello" }]) =
      (Except.error IndexError.emptyKnowledgeBase, []) :=
  (index_knowledge_base_error_cases String.length
      (some [{ path := "knowledge_base/notes.md", name := "notes.md",
               content := some "hello" }])).2.2 _ rfl (by decide)

/-- C7: a read failure on an individual candidate file never aborts the load
(`load_text_files` is total over the abstract filesystem) and every candidate
`.txt` file that reads successfully still yields its `Document`, wrapping the
full contents with `source`, `filename` and `file_type` metadata, whatever the
other files do. -/
theorem load_text_files_keeps_readable_txt (files : List FileEntry)
    (f : FileEntry) (content : String) (hf : f ∈ files)
    (htxt : globTxt f.name = true) (hread : f.content = some content) :
    ({ page_content := content
       metadata := { source := f.path, filename := f.name, file_type := "text" } }
      : Document) ∈ load_text_files files := by
  simp only [load_text_files, List.mem_filterMap, List.mem_filter]
  exact ⟨f, ⟨hf, htxt⟩, by rw [hread]; rfl⟩

/-- Concrete directory listing used by the witness for C7: a `.txt` file whose
read fails, a non-`.txt` file, and a readable `.txt` file. -/
def loader_witness_files : List FileEntry :=
  [{ path := "knowledge_base/bad.txt", name := "bad.txt", content := none },
   { path := "knowledge_base/skip.md", name := "skip.md", content := some "nope" },
   { path := "knowledge_base/good.txt", name := "good.txt", content := some "hello" }]

/-- Witness for C7: the readable `.txt` file is loaded even though an earlier
file's read fails. -/
theorem load_text_files_keeps_readable_txt_witness :
    ({ path := "knowledge_base/good.txt", name := "good.txt",
       content := some "hello" } : FileEntry) ∈ loader_witness_files ∧
    globTxt "good.txt" = true ∧
    ({ page_content := "hello"
       metadata := { source := "knowledge_base/good.txt", filename := "good.txt",
                     file_type := "text" } } : Document)
      ∈ load_text_files loader_witness_files :=
  ⟨by decide, by decide,
   load_text_files_keeps_readable_txt loader_witness_files
     { path := "knowledge_base/good.txt", name := "good.txt", content := some "hello" }
     "hello" (by decide) (by decide) rfl⟩
